import Mathlib

/-!
Shallow embedding of `src/server.ts` (an Express + sharp image resize gateway).

The handler for `GET /resize` is modelled as a pure function from a request
(its query object) and an environment of external collaborators — the WHATWG
URL parser (`new URL`), the JS `Number` coercion, the outcome of the upstream
`fetch`, and the outcome of the streaming `pipeline` — to a trace of response
events together with two observables: whether `fetch` was called and the
configuration of the `sharp` transformer when one was constructed.

JS numbers are modelled as `JSNum` (NaN, ±Infinity, or a finite rational);
query values follow Express's `ParsedQs` shape (string, array of
strings/objects, nested object, or undefined).
-/

set_option autoImplicit false

namespace ImageServer

/-- A JS number: NaN, positive or negative infinity, or a finite value
(modelled as a rational, which covers every finite double exactly). -/
inductive JSNum where
  | nan
  | posInf
  | negInf
  | fin (q : ℚ)
deriving DecidableEq

/-- `Number.isFinite`. -/
def JSNum.isFinite : JSNum → Bool
  | .fin _ => true
  | _ => false

/-- `const MAX_DIMENSION = 4000` (server.ts line 8). -/
def MAX_DIMENSION : ℤ := 4000

/-- `const REQUEST_TIMEOUT_MS = 8000` (server.ts line 9), in milliseconds. -/
def REQUEST_TIMEOUT_MS : ℚ := 8000

/-- `const ALLOWED_PROTOCOLS = new Set(['http:', 'https:'])` (server.ts line 10). -/
def ALLOWED_PROTOCOLS : List String := ["http:", "https:"]

/-- JS `String.prototype.toLowerCase`, restricted to ASCII case mapping.
All tokens the server compares against are ASCII, and no non-ASCII string
lowercases to any of them, so this is extensionally adequate here. -/
def jsToLower (s : String) : String :=
  String.mk (s.data.map Char.toLower)

/-- An element of an Express query-value array: `qs` produces arrays whose
elements are strings or nested `ParsedQs` objects. -/
inductive QVElem where
  | eStr (s : String)
  | eObj
deriving DecidableEq

/-- JS `String(v)` for an array element (`eObj` prints as in JS). -/
def jsStringElem : QVElem → String
  | .eStr s => s
  | .eObj => "[object Object]"

/-- An Express query value (`string | string[] | ParsedQs | ParsedQs[] | undefined`);
`vAbsent` stands for an absent key (and for `null`, which `qp` treats the same
via its `v == null` check). -/
inductive QueryVal where
  | vAbsent
  | vStr (s : String)
  | vArr (l : List QVElem)
  | vObj
deriving DecidableEq

/-- `qp` (server.ts lines 32-37): normalize a query value to `string | undefined`.
`null`/`undefined` give `undefined`; an array yields `String` of its first
element (arrays produced by `qs` never contain `null`, so the `v[0] != null`
guard only excludes the empty array); a non-array object gives `undefined`;
a string is returned as is (`String(v)` on a string is the identity). -/
def qp : QueryVal → Option String
  | .vAbsent => none
  | .vStr s => some s
  | .vArr l =>
      match l.head? with
      | some e => some (jsStringElem e)
      | none => none
  | .vObj => none

/-- `parseDimension` (server.ts lines 40-45). `num` models JS `Number` on
strings. Non-finite or `<= 0` input is absent; otherwise
`Math.min(Math.floor(n), MAX_DIMENSION)`. -/
def parseDimension (num : String → JSNum) (value : Option String) : Option ℤ :=
  match value with
  | none => none
  | some v =>
      match num v with
      | .fin n => if n ≤ 0 then none else some (min (Int.floor n) MAX_DIMENSION)
      | _ => none

/-- The `fit` enum (server.ts line 47). -/
inductive Fit where
  | cover
  | contain
  | fill
  | inside
  | outside
deriving DecidableEq

/-- `normalizeFit` (server.ts lines 48-52): lowercase, membership in the
allowed list, defaulting to `cover`. -/
def normalizeFit (value : Option String) : Fit :=
  let v := jsToLower (value.getD "")
  if v = "cover" then .cover
  else if v = "contain" then .contain
  else if v = "fill" then .fill
  else if v = "inside" then .inside
  else if v = "outside" then .outside
  else .cover

/-- The output format enum (server.ts line 54). -/
inductive OutFormat where
  | jpeg
  | png
  | webp
  | avif
  | gif
  | tiff
deriving DecidableEq

/-- The string name of an output format. -/
def OutFormat.name : OutFormat → String
  | .jpeg => "jpeg"
  | .png => "png"
  | .webp => "webp"
  | .avif => "avif"
  | .gif => "gif"
  | .tiff => "tiff"

/-- `normalizeFormat` (server.ts lines 55-61): `!value` (so the empty string
counts as absent), lowercase, `jpg` aliased to `jpeg`, membership in the
allowed list, unrecognized tokens absent. -/
def normalizeFormat (value : Option String) : Option OutFormat :=
  match value with
  | none => none
  | some value =>
      if value = "" then none
      else
        let v := jsToLower value
        if v = "jpg" then some .jpeg
        else if v = "jpeg" then some .jpeg
        else if v = "png" then some .png
        else if v = "webp" then some .webp
        else if v = "avif" then some .avif
        else if v = "gif" then some .gif
        else if v = "tiff" then some .tiff
        else none

/-- `normalizeQuality` (server.ts lines 63-68): non-finite input absent,
otherwise `Math.max(1, Math.min(100, Math.floor(n)))`. -/
def normalizeQuality (num : String → JSNum) (value : Option String) : Option ℤ :=
  match value with
  | none => none
  | some v =>
      match num v with
      | .fin n => some (max 1 (min 100 (Int.floor n)))
      | _ => none

/-- The formats whose encoder accepts a quality option (server.ts line 149). -/
def qualityFormats : List OutFormat := [.jpeg, .png, .webp, .avif, .tiff]

/-- JS truthiness of a `number | undefined` (`width || height`,
`width || null`): `undefined` and `0` are falsy. -/
def jsTruthy : Option ℤ → Bool
  | some n => n ≠ 0
  | none => false

/-- Arguments of `transformer.resize` (server.ts lines 141-144). -/
structure ResizeOpts where
  width : Option ℤ
  height : Option ℤ
  fit : Fit
  withoutEnlargement : Bool
deriving DecidableEq

/-- The configuration accumulated on the `sharp` transformer
(server.ts lines 138-153): `sharp({ failOn: 'none' }).rotate()`, then an
optional `.resize`, then an optional `.toFormat` carrying the quality option
actually passed to the encoder. -/
structure SharpConfig where
  failOn : String
  rotate : Bool
  resize : Option ResizeOpts
  toFormat : Option (OutFormat × Option ℤ)
deriving DecidableEq

/-- Build the transformer configuration from the normalized parameters
(server.ts lines 138-153). `resize` is applied iff `width || height` is
truthy, with `width || null` / `height || null` as arguments; quality is put
into the format options iff it is defined and the format is in
`qualityFormats`. -/
def buildTransformer (width height : Option ℤ) (fit : Fit)
    (outFormat : Option OutFormat) (quality : Option ℤ) : SharpConfig :=
  { failOn := "none"
    rotate := true
    resize :=
      if jsTruthy width || jsTruthy height then
        some { width := if jsTruthy width then width else none
               height := if jsTruthy height then height else none
               fit := fit
               withoutEnlargement := true }
      else none
    toFormat :=
      match outFormat with
      | none => none
      | some f =>
          some (f, if quality.isSome && qualityFormats.contains f then quality else none) }

/-- The upstream `fetch` `Response` as the handler observes it: `ok`,
`status`, `statusText`, its header map, and whether `body` is non-null. -/
structure Upstream where
  ok : Bool
  status : ℕ
  statusText : String
  headers : List (String × String)
  hasBody : Bool
deriving DecidableEq

/-- `upstream.headers.get(k)`: `null` (here `none`) when the header is absent.
Header names are taken already lowercased, as the code queries them. -/
def hGet (u : Upstream) (k : String) : Option String :=
  (u.headers.find? (fun p => p.1 = k)).map Prod.snd

/-- The outcome of `await fetchWithTimeout(imageUrl)`: a rejection carrying
the error's `name`, or a `Response`. -/
inductive FetchOutcome where
  | err (name : String)
  | resp (u : Upstream)
deriving DecidableEq

/-- The outcome of `await pipeline(...)`: success, or a rejection observed in
the `catch` block with the value `res.headersSent` has there (bytes were
flushed before the failure iff it is `true`). -/
inductive PipeResult where
  | ok
  | errAt (headersSent : Bool)
deriving DecidableEq

/-- One observable action on the Express `res` object. `streamStart` marks
the first body byte being flushed (after which `res.headersSent` is true);
`sendJson` is `res.json({ error: msg })`, which sends headers and body. -/
inductive ResEvent where
  | setStatus (n : ℕ)
  | setHeader (k v : String)
  | sendJson (msg : String)
  | streamStart
  | endStream
deriving DecidableEq

/-- External collaborators of one handler run: the WHATWG URL parser
(`none` models `new URL` throwing; on success it yields the parsed URL's
`protocol`, the only component the handler reads),
JS `Number` on strings, the fetch outcome, and the pipeline outcome. -/
structure Env where
  parseURL : String → Option String
  jsNumber : String → JSNum
  fetchResult : FetchOutcome
  pipeResult : PipeResult

/-- A request: its parsed query object, as an association list of
(key, value); `Object.keys(req.query).length` is its length. -/
structure Req where
  query : List (String × QueryVal)

/-- `req.query.k` for a key `k` (`.vAbsent` when the key is absent). -/
def queryGet (req : Req) (k : String) : QueryVal :=
  ((req.query.find? (fun p => p.1 = k)).map Prod.snd).getD .vAbsent

/-- The response-header events of the passthrough branch (server.ts lines
114-118): content-type with `||` fallback, content-length only when truthy
(the JS `if (contentLength)` skips both `null` and the empty string),
cache-control with `||` fallback. -/
def passthroughHeaders (u : Upstream) : List ResEvent :=
  let contentType :=
    match hGet u "content-type" with
    | some s => if s = "" then "application/octet-stream" else s
    | none => "application/octet-stream"
  let cacheControl :=
    match hGet u "cache-control" with
    | some s => if s = "" then "public, max-age=3600" else s
    | none => "public, max-age=3600"
  [.setHeader "Content-Type" contentType]
    ++ (match hGet u "content-length" with
        | some s => if s = "" then [] else [.setHeader "Content-Length" s]
        | none => [])
    ++ [.setHeader "Cache-Control" cacheControl]

/-- The passthrough branch (server.ts lines 113-129): set the headers;
`res.status(502).end()` when the body is null; otherwise pipe the upstream
body to `res`, and on a pipeline error set status 502 only when headers were
not yet sent, then `res.end()`. -/
def passthroughRun (u : Upstream) (pr : PipeResult) : List ResEvent :=
  if u.hasBody = false then passthroughHeaders u ++ [.setStatus 502, .endStream]
  else
    match pr with
    | .ok => passthroughHeaders u ++ [.streamStart, .endStream]
    | .errAt true => passthroughHeaders u ++ [.streamStart, .endStream]
    | .errAt false => passthroughHeaders u ++ [.setStatus 502, .endStream]

/-- JS `s.startsWith(p)`: `p` is a prefix of `s` (character-wise). -/
def strStartsWith (s p : String) : Bool :=
  p.data.isPrefixOf s.data

/-- Content-type derivation on the transform branch (server.ts lines
157-162): `image/<format>` when a format was specified, else the upstream
content-type when truthy and starting with `image/`, else
`application/octet-stream`. -/
def deriveTransformContentType (outFormat : Option OutFormat) (orig : Option String) : String :=
  match outFormat with
  | some f => "image/" ++ f.name
  | none =>
      match orig with
      | some s => if s ≠ "" ∧ strStartsWith s "image/" then s else "application/octet-stream"
      | none => "application/octet-stream"

/-- The response-header events of the transform branch (server.ts lines
155-162). -/
def transformHeaders (outFormat : Option OutFormat) (u : Upstream) : List ResEvent :=
  [.setHeader "Cache-Control" "public, max-age=3600",
   .setHeader "Content-Type" (deriveTransformContentType outFormat (hGet u "content-type"))]

/-- The transform branch (server.ts lines 131-171): normalize the query
parameters, configure the sharp transformer, set the headers,
`res.status(502).end()` when the body is null; otherwise pipe upstream →
transformer → `res`, and on a pipeline error respond
`res.status(500).json(...)` when headers were not yet sent, else `res.end()`.
Returns the event trace and the transformer configuration. -/
def transformRun (num : String → JSNum) (req : Req) (u : Upstream) (pr : PipeResult) :
    List ResEvent × SharpConfig :=
  let width := parseDimension num (qp (queryGet req "w"))
  let height := parseDimension num (qp (queryGet req "h"))
  let fit := normalizeFit (qp (queryGet req "fit"))
  let outFormat := normalizeFormat (qp (queryGet req "format"))
  let quality := normalizeQuality num (qp (queryGet req "q"))
  let cfg := buildTransformer width height fit outFormat quality
  let hdrs := transformHeaders outFormat u
  let events :=
    if u.hasBody = false then hdrs ++ [.setStatus 502, .endStream]
    else
      match pr with
      | .ok => hdrs ++ [.streamStart, .endStream]
      | .errAt true => hdrs ++ [.streamStart, .endStream]
      | .errAt false => hdrs ++ [.setStatus 500, .sendJson "Image transform failed"]
  (events, cfg)

/-- The observables of one run of the `/resize` handler: the trace of
response events, whether the upstream fetch was invoked, and the sharp
transformer configuration when the transform branch constructed one. -/
structure RunResult where
  events : List ResEvent
  fetchCalled : Bool
  sharpCfg : Option SharpConfig
deriving DecidableEq

/-- The part of the handler after URL validation (server.ts lines 91-171):
the strict `hasOnlyUrl` check (`Object.keys(req.query).length === 1 &&
req.query.url !== undefined`), fetch-error mapping (`AbortError` → 504,
otherwise 502), non-ok upstream → 400, then passthrough or transform. -/
def afterFetch (env : Env) (req : Req) : RunResult :=
  match env.fetchResult with
  | .err name =>
      if name = "AbortError" then
        ⟨[.setStatus 504, .sendJson "Upstream image fetch timed out"], true, none⟩
      else
        ⟨[.setStatus 502, .sendJson "Failed to fetch upstream image"], true, none⟩
  | .resp u =>
      if u.ok = false then
        ⟨[.setStatus 400,
          .sendJson ("Failed to fetch image: " ++ toString u.status ++ " "
            ++ u.statusText)], true, none⟩
      else if req.query.length = 1 ∧ queryGet req "url" ≠ .vAbsent then
        ⟨passthroughRun u env.pipeResult, true, none⟩
      else
        ⟨(transformRun env.jsNumber req u env.pipeResult).1, true,
          some (transformRun env.jsNumber req u env.pipeResult).2⟩

/-- The `GET /resize` handler (server.ts lines 73-176). Follows the source
control flow: `qp(req.query.url)` with `!imageUrl` (so the empty string takes
the missing-parameter branch), `new URL` validation, protocol allow-list,
then `afterFetch`. -/
def handler (env : Env) (req : Req) : RunResult :=
  match qp (queryGet req "url") with
  | none => ⟨[.setStatus 400, .sendJson "Missing required query parameter: url"], false, none⟩
  | some imageUrl =>
      if imageUrl = "" then
        ⟨[.setStatus 400, .sendJson "Missing required query parameter: url"], false, none⟩
      else
        match env.parseURL imageUrl with
        | none => ⟨[.setStatus 400, .sendJson "Invalid url"], false, none⟩
        | some protocol =>
            if ALLOWED_PROTOCOLS.contains protocol = false then
              ⟨[.setStatus 400, .sendJson "Unsupported protocol. Use http or https."], false, none⟩
            else
              afterFetch env req

/-- `fetchWithTimeout` (server.ts lines 16-29), modelled over time: the
`AbortController`'s timer fires at `timeout` ms; `resolveTime` is when the
underlying `fetch` would settle (`none` = never). If the fetch does not
settle by the deadline, the timer calls `controller.abort()` and the fetch
rejects with an `AbortError`; otherwise the timer is cleared and the fetch's
own outcome is returned. `abortFired` records whether `controller.abort()`
ran. -/
structure FetchTimeoutRun where
  abortFired : Bool
  outcome : FetchOutcome
deriving DecidableEq

/-- See `FetchTimeoutRun`. -/
def fetchWithTimeout (resolveTime : Option ℚ) (outcome : FetchOutcome)
    (timeout : ℚ) : FetchTimeoutRun :=
  match resolveTime with
  | none => ⟨true, .err "AbortError"⟩
  | some t => if timeout < t then ⟨true, .err "AbortError"⟩ else ⟨false, outcome⟩

/-- True when a trace consists only of stream activity (no status, header
or JSON-body mutation). -/
def onlyStream : List ResEvent → Bool
  | [] => true
  | .streamStart :: t => onlyStream t
  | .endStream :: t => onlyStream t
  | _ => false

/-- True when, after the first `streamStart` (headers flushed), the trace
contains no `setStatus`, `setHeader` or `sendJson` event. -/
def noMutAfterStart : List ResEvent → Bool
  | [] => true
  | .streamStart :: t => onlyStream t
  | _ :: t => noMutAfterStart t

/-- True when the trace contains a `sendJson` (JSON body) event. -/
def hasSendJson (l : List ResEvent) : Bool :=
  l.any fun e => match e with | .sendJson _ => true | _ => false

/-- True when the event sets the `Content-Length` response header. -/
def setsContentLength : ResEvent → Bool
  | .setHeader k _ => k = "Content-Length"
  | _ => false

/-- True when the trace contains no `streamStart` event. -/
def noStart (l : List ResEvent) : Bool :=
  l.all fun e =>
    match e with
    | .streamStart => false
    | _ => true

/-- A fixed upstream 200 response used by concrete runs: content-type
`image/jpeg`, content-length `100`, a body present. -/
def okUpstream : Upstream :=
  { ok := true, status := 200, statusText := "OK"
    headers := [("content-type", "image/jpeg"), ("content-length", "100")]
    hasBody := true }

/-- A fixed environment used by concrete runs: `new URL` succeeds on the one
URL the fixtures use (protocol `http:`), `Number` is `NaN` everywhere (no
fixture supplies numeric parameters), the fetch returns `okUpstream`, and
the pipeline succeeds. -/
def okEnv : Env :=
  { parseURL := fun s => if s = "http://ex.test/a.jpg" then some "http:" else none
    jsNumber := fun _ => .nan
    fetchResult := .resp okUpstream
    pipeResult := .ok }

/-- A request whose query holds `url` plus one unrelated key `extra`, and
none of `w`, `h`, `fit`, `format`, `q`. -/
def extraKeyReq : Req :=
  ⟨[("url", .vStr "http://ex.test/a.jpg"), ("extra", .vStr "1")]⟩

/-- A request whose query holds exactly the key `url`. -/
def onlyUrlReq : Req :=
  ⟨[("url", .vStr "http://ex.test/a.jpg")]⟩

/-- `okEnv` with the fetch rejecting with an `AbortError` (the timeout
path). -/
def abortEnv : Env :=
  { okEnv with fetchResult := .err "AbortError" }

/-- `okEnv` with the fetch rejecting with a non-abort network error. -/
def netErrEnv : Env :=
  { okEnv with fetchResult := .err "TypeError" }

/-- An upstream 404 Not Found response (non-ok status). -/
def notFoundUpstream : Upstream :=
  { ok := false, status := 404, statusText := "Not Found"
    headers := [], hasBody := false }

/-- `okEnv` with the upstream responding 404 Not Found (non-ok status). -/
def notOkEnv : Env :=
  { okEnv with fetchResult := .resp notFoundUpstream }

/-- An upstream 200 response carrying a content-length header whose value is
the empty string. -/
def emptyCLUpstream : Upstream :=
  { ok := true, status := 200, statusText := "OK"
    headers := [("content-type", "image/png"), ("content-length", "")]
    hasBody := true }

/-- `okEnv` with the streaming pipeline failing before any byte was flushed
(`res.headersSent` is false in the catch block). -/
def pipeFailEnv : Env :=
  { okEnv with pipeResult := .errAt false }

/-! ### Helper lemmas -/

theorem qp_ne_vAbsent {v : QueryVal} {s : String} (h : qp v = some s) :
    v ≠ QueryVal.vAbsent := by
  intro hv
  subst hv
  simp [qp] at h

theorem handler_valid (env : Env) (req : Req) (s protocol : String)
    (h1 : qp (queryGet req "url") = some s) (h2 : s ≠ "")
    (h3 : env.parseURL s = some protocol)
    (h4 : ALLOWED_PROTOCOLS.contains protocol = true) :
    handler env req = afterFetch env req := by
  unfold handler
  rw [h1]
  simp only [h2, if_false, if_neg, h3, h4]
  simp

theorem noMutAfterStart_append (l t : List ResEvent) (h : noStart l = true) :
    noMutAfterStart (l ++ t) = noMutAfterStart t := by
  induction l with
  | nil => simp
  | cons e l ih => cases e <;> simp_all [noStart, noMutAfterStart]

theorem noStart_passthroughHeaders (u : Upstream) :
    noStart (passthroughHeaders u) = true := by
  unfold passthroughHeaders
  cases h : hGet u "content-length" with
  | none => simp [noStart]
  | some s =>
      by_cases hs : s = "" <;> simp [noStart, hs]

theorem noStart_transformHeaders (f : Option OutFormat) (u : Upstream) :
    noStart (transformHeaders f u) = true := by
  simp [transformHeaders, noStart]

theorem noMut_passthroughRun (u : Upstream) (pr : PipeResult) :
    noMutAfterStart (passthroughRun u pr) = true := by
  have h := noStart_passthroughHeaders u
  unfold passthroughRun
  split
  · rw [noMutAfterStart_append _ _ h]; rfl
  · rcases pr with _ | b
    · rw [noMutAfterStart_append _ _ h]; rfl
    · cases b <;> rw [noMutAfterStart_append _ _ h] <;> rfl

theorem noMut_transformRun (num : String → JSNum) (req : Req) (u : Upstream)
    (pr : PipeResult) : noMutAfterStart (transformRun num req u pr).1 = true := by
  have h := noStart_transformHeaders (normalizeFormat (qp (queryGet req "format"))) u
  unfold transformRun
  simp only []
  split
  · rw [noMutAfterStart_append _ _ h]; rfl
  · rcases pr with _ | b
    · rw [noMutAfterStart_append _ _ h]; rfl
    · cases b <;> rw [noMutAfterStart_append _ _ h] <;> rfl

theorem noJson_passthroughHeaders (u : Upstream) :
    hasSendJson (passthroughHeaders u) = false := by
  unfold passthroughHeaders
  cases h : hGet u "content-length" with
  | none => simp [hasSendJson]
  | some s =>
      by_cases hs : s = "" <;> simp [hasSendJson, hs]

theorem noMut_afterFetch (env : Env) (req : Req) :
    noMutAfterStart (afterFetch env req).events = true := by
  unfold afterFetch
  split
  · split <;> decide
  · split
    · simp [noMutAfterStart]
    · split
      · exact noMut_passthroughRun _ env.pipeResult
      · exact noMut_transformRun env.jsNumber req _ env.pipeResult

theorem noMut_handler (env : Env) (req : Req) :
    noMutAfterStart (handler env req).events = true := by
  unfold handler
  split
  · decide
  · split
    · decide
    · split
      · decide
      · split
        · decide
        · exact noMut_afterFetch env req

/-! ### Claims -/

/-- C1, counterexample: a request whose query holds `url` plus one unrelated
key `extra` — none of `w`, `h`, `fit`, `format`, `q` is supplied — is routed
to the transform branch and a sharp transformer is constructed, because
`hasOnlyUrl` is the strict check `Object.keys(req.query).length === 1`. -/
theorem c1_counterexample :
    queryGet extraKeyReq "w" = QueryVal.vAbsent ∧
    queryGet extraKeyReq "h" = QueryVal.vAbsent ∧
    queryGet extraKeyReq "fit" = QueryVal.vAbsent ∧
    queryGet extraKeyReq "format" = QueryVal.vAbsent ∧
    queryGet extraKeyReq "q" = QueryVal.vAbsent ∧
    queryGet extraKeyReq "url" ≠ QueryVal.vAbsent ∧
    (handler okEnv extraKeyReq).sharpCfg.isSome = true := by
  decide

/-- C1, amended: for every request that passes URL validation and whose
fetch yields an ok response, the sharp transformer is not constructed (the
passthrough branch serves the request) exactly when the query object has
exactly one key — any additional query key, known or unknown, routes the
request to the transform branch. -/
theorem c1_theorem (env : Env) (req : Req) (s protocol : String) (u : Upstream)
    (h1 : qp (queryGet req "url") = some s) (h2 : s ≠ "")
    (h3 : env.parseURL s = some protocol)
    (h4 : ALLOWED_PROTOCOLS.contains protocol = true)
    (hf : env.fetchResult = .resp u) (hok : u.ok = true) :
    ((handler env req).sharpCfg = none ↔ req.query.length = 1) := by
  rw [handler_valid env req s protocol h1 h2 h3 h4]
  have hne := qp_ne_vAbsent h1
  by_cases hl : req.query.length = 1 <;>
    simp [afterFetch, hf, hok, hl, hne]

/-- C1, witness: the amended claim instantiated on the single-key request
fixture. -/
theorem c1_witness :
    (handler okEnv onlyUrlReq).sharpCfg = none ↔ onlyUrlReq.query.length = 1 :=
  c1_theorem okEnv onlyUrlReq "http://ex.test/a.jpg" "http:" okUpstream
    (by decide) (by decide) (by decide) (by decide) (by decide) (by decide)

/-- C2, counterexample: on the passthrough branch, a streaming failure
before any byte is sent is answered with `res.status(502)` and a bare
`res.end()` — no structured JSON error body is written. -/
theorem c2_counterexample :
    (handler pipeFailEnv onlyUrlReq).events =
      [.setHeader "Content-Type" "image/jpeg", .setHeader "Content-Length" "100",
       .setHeader "Cache-Control" "public, max-age=3600", .setStatus 502, .endStream] ∧
    hasSendJson (handler pipeFailEnv onlyUrlReq).events = false := by
  decide

/-- C2, amended: (1) for every request, the handler's trace performs no
status, header or JSON-body mutation after the first body byte is flushed —
a post-header streaming failure only terminates the stream; (2) a transform
streaming failure before any byte is sent yields a structured JSON 500
response; (3) a passthrough streaming failure before any byte is sent yields
status 502 with a bare end — no JSON body. -/
theorem c2_theorem :
    (∀ env req, noMutAfterStart (handler env req).events = true) ∧
    (∀ num req u, u.hasBody = true →
      (transformRun num req u (.errAt false)).1 =
        transformHeaders (normalizeFormat (qp (queryGet req "format"))) u
          ++ [.setStatus 500, .sendJson "Image transform failed"]) ∧
    (∀ u, u.hasBody = true →
      passthroughRun u (.errAt false) =
        passthroughHeaders u ++ [.setStatus 502, .endStream] ∧
      hasSendJson (passthroughRun u (.errAt false)) = false) := by
  refine ⟨noMut_handler, ?_, ?_⟩
  · intro num req u hb
    unfold transformRun
    simp [hb]
  · intro u hb
    have hj := noJson_passthroughHeaders u
    unfold passthroughRun
    simp [hb, hasSendJson, List.any_append] at hj ⊢
    exact hj

/-- C2, witness: the amended claim instantiated on the fixtures. -/
theorem c2_witness :
    noMutAfterStart (handler okEnv onlyUrlReq).events = true ∧
    (transformRun (fun _ => JSNum.nan) extraKeyReq okUpstream (.errAt false)).1 =
      transformHeaders (normalizeFormat (qp (queryGet extraKeyReq "format"))) okUpstream
        ++ [.setStatus 500, .sendJson "Image transform failed"] ∧
    hasSendJson (passthroughRun okUpstream (.errAt false)) = false :=
  ⟨c2_theorem.1 okEnv onlyUrlReq,
   c2_theorem.2.1 (fun _ => JSNum.nan) extraKeyReq okUpstream (by decide),
   (c2_theorem.2.2 okUpstream (by decide)).2⟩

/-- C3: a request whose `url` parameter is absent, fails to parse as a URL,
or has a scheme other than http/https is answered 400 with a JSON error
body, and the upstream fetch is never invoked. -/
theorem c3_theorem (env : Env) (req : Req)
    (h : qp (queryGet req "url") = none
      ∨ (∃ s, qp (queryGet req "url") = some s ∧ env.parseURL s = none)
      ∨ (∃ s protocol, qp (queryGet req "url") = some s ∧
          env.parseURL s = some protocol ∧
          ALLOWED_PROTOCOLS.contains protocol = false)) :
    (handler env req).fetchCalled = false ∧
    ∃ msg, (handler env req).events = [.setStatus 400, .sendJson msg] := by
  rcases h with h | ⟨s, hs, hp⟩ | ⟨s, protocol, hs, hp, hc⟩
  · unfold handler
    rw [h]
    exact ⟨rfl, "Missing required query parameter: url", rfl⟩
  · unfold handler
    simp only [hs]
    by_cases hse : s = ""
    · rw [if_pos hse]
      exact ⟨rfl, "Missing required query parameter: url", rfl⟩
    · rw [if_neg hse]
      simp only [hp]
      exact ⟨by simp, "Invalid url", by simp⟩
  · unfold handler
    simp only [hs]
    by_cases hse : s = ""
    · rw [if_pos hse]
      exact ⟨rfl, "Missing required query parameter: url", rfl⟩
    · rw [if_neg hse]
      simp only [hp]
      rw [if_pos hc]
      exact ⟨by simp, "Unsupported protocol. Use http or https.", by simp⟩

/-- C3, witness: a request with an empty query object. -/
theorem c3_witness :
    (handler okEnv (⟨[]⟩ : Req)).fetchCalled = false ∧
    ∃ msg, (handler okEnv (⟨[]⟩ : Req)).events = [.setStatus 400, .sendJson msg] :=
  c3_theorem okEnv ⟨[]⟩ (Or.inl (by decide))

/-- C4: a fetch that does not settle within the timeout (default
`REQUEST_TIMEOUT_MS` = 8000 ms) has its in-flight connection cancelled by the
abort-controller timer (`abortFired`) and rejects with an `AbortError`, which
the handler maps to status 504. -/
theorem c4_theorem :
    REQUEST_TIMEOUT_MS = 8000 ∧
    (∀ (resolveTime : Option ℚ) (outcome : FetchOutcome),
      (∀ t, resolveTime = some t → REQUEST_TIMEOUT_MS < t) →
      (fetchWithTimeout resolveTime outcome REQUEST_TIMEOUT_MS).abortFired = true ∧
      (fetchWithTimeout resolveTime outcome REQUEST_TIMEOUT_MS).outcome = .err "AbortError") ∧
    (∀ env req s protocol,
      qp (queryGet req "url") = some s → s ≠ "" →
      env.parseURL s = some protocol →
      ALLOWED_PROTOCOLS.contains protocol = true →
      env.fetchResult = .err "AbortError" →
      (handler env req).events =
        [.setStatus 504, .sendJson "Upstream image fetch timed out"]) := by
  refine ⟨rfl, ?_, ?_⟩
  · intro rt oc h
    rcases rt with _ | t
    · exact ⟨rfl, rfl⟩
    · have ht := h t rfl
      simp [fetchWithTimeout, ht]
  · intro env req s protocol h1 h2 h3 h4 hf
    rw [handler_valid env req s protocol h1 h2 h3 h4]
    unfold afterFetch
    simp [hf]

/-- C4, witness: a fetch that never settles, and the handler run on the
abort environment. -/
theorem c4_witness :
    ((fetchWithTimeout none (.resp okUpstream) REQUEST_TIMEOUT_MS).abortFired = true ∧
     (fetchWithTimeout none (.resp okUpstream) REQUEST_TIMEOUT_MS).outcome =
       .err "AbortError") ∧
    (handler abortEnv onlyUrlReq).events =
      [.setStatus 504, .sendJson "Upstream image fetch timed out"] :=
  ⟨c4_theorem.2.1 none (.resp okUpstream) (fun t ht => by simp at ht),
   c4_theorem.2.2 abortEnv onlyUrlReq "http://ex.test/a.jpg" "http:"
     (by decide) (by decide) (by decide) (by decide) rfl⟩

/-- C5: a non-abort fetch rejection is answered 502; an upstream response
with a non-success status is answered with the fixed status 400, whose JSON
body carries the upstream's status and status text — whatever the upstream
status was, the outer status is the constant 400. -/
theorem c5_theorem :
    (∀ env req s protocol name,
      qp (queryGet req "url") = some s → s ≠ "" →
      env.parseURL s = some protocol →
      ALLOWED_PROTOCOLS.contains protocol = true →
      env.fetchResult = .err name → name ≠ "AbortError" →
      (handler env req).events =
        [.setStatus 502, .sendJson "Failed to fetch upstream image"]) ∧
    (∀ env req s protocol u,
      qp (queryGet req "url") = some s → s ≠ "" →
      env.parseURL s = some protocol →
      ALLOWED_PROTOCOLS.contains protocol = true →
      env.fetchResult = .resp u → u.ok = false →
      (handler env req).events =
        [.setStatus 400,
         .sendJson ("Failed to fetch image: " ++ toString u.status ++ " "
           ++ u.statusText)]) := by
  constructor
  · intro env req s protocol name h1 h2 h3 h4 hf hn
    rw [handler_valid env req s protocol h1 h2 h3 h4]
    unfold afterFetch
    simp [hf, hn]
  · intro env req s protocol u h1 h2 h3 h4 hf hok
    rw [handler_valid env req s protocol h1 h2 h3 h4]
    unfold afterFetch
    simp [hf, hok]

/-- C5, witness: a network-level failure and a 404 upstream. -/
theorem c5_witness :
    (handler netErrEnv onlyUrlReq).events =
      [.setStatus 502, .sendJson "Failed to fetch upstream image"] ∧
    (handler notOkEnv onlyUrlReq).events =
      [.setStatus 400, .sendJson "Failed to fetch image: 404 Not Found"] :=
  ⟨c5_theorem.1 netErrEnv onlyUrlReq "http://ex.test/a.jpg" "http:" "TypeError"
     (by decide) (by decide) (by decide) (by decide) rfl (by decide),
   c5_theorem.2 notOkEnv onlyUrlReq "http://ex.test/a.jpg" "http:" notFoundUpstream
     (by decide) (by decide) (by decide) (by decide) rfl (by decide)⟩

theorem transformRun_events (num : String → JSNum) (req : Req) (u : Upstream)
    (pr : PipeResult) :
    (transformRun num req u pr).1 =
      transformHeaders (normalizeFormat (qp (queryGet req "format"))) u ++
        (if u.hasBody = false then [ResEvent.setStatus 502, ResEvent.endStream]
         else
           match pr with
           | .ok => [ResEvent.streamStart, ResEvent.endStream]
           | .errAt true => [ResEvent.streamStart, ResEvent.endStream]
           | .errAt false =>
               [ResEvent.setStatus 500, ResEvent.sendJson "Image transform failed"]) := by
  cases hb : u.hasBody
  · simp [transformRun, hb]
  · rcases pr with _ | b
    · simp [transformRun, hb]
    · cases b <;> simp [transformRun, hb]

/-- C6, counterexample: an upstream 200 response that carries a
content-length header whose value is the empty string; the `if
(contentLength)` truthiness guard skips it, so the passthrough response
never sets Content-Length even though the upstream carried the header. -/
theorem c6_counterexample :
    hGet emptyCLUpstream "content-length" = some "" ∧
    (passthroughRun emptyCLUpstream .ok).all
      (fun e => !(setsContentLength e)) = true := by
  decide

/-- C6, amended: for every passthrough request whose upstream response
carries a content-length header with a non-empty value, that value is
propagated unchanged as the Content-Length response header; the transform
branch never sets a Content-Length header. -/
theorem c6_theorem :
    (∀ u pr s, hGet u "content-length" = some s → s ≠ "" →
      ResEvent.setHeader "Content-Length" s ∈ passthroughRun u pr) ∧
    (∀ num req u pr,
      (transformRun num req u pr).1.all (fun e => !(setsContentLength e)) = true) := by
  constructor
  · intro u pr s h hs
    have hmem : ResEvent.setHeader "Content-Length" s ∈ passthroughHeaders u := by
      unfold passthroughHeaders
      simp only [h]
      simp [hs]
    unfold passthroughRun
    split
    · simp [hmem]
    · rcases pr with _ | b
      · simp [hmem]
      · cases b <;> simp [hmem]
  · intro num req u pr
    rw [transformRun_events, List.all_append]
    have h1 : (transformHeaders (normalizeFormat (qp (queryGet req "format"))) u).all
        (fun e => !(setsContentLength e)) = true := by
      simp [transformHeaders, setsContentLength]
    rw [h1]
    split
    · decide
    · split <;> decide

/-- C6, witness: the amended claim instantiated on the 200 fixture, whose
content-length is `100`. -/
theorem c6_witness :
    ResEvent.setHeader "Content-Length" "100" ∈ passthroughRun okUpstream .ok ∧
    (transformRun (fun _ => JSNum.nan) extraKeyReq okUpstream .ok).1.all
      (fun e => !(setsContentLength e)) = true :=
  ⟨c6_theorem.1 okUpstream .ok "100" (by decide) (by decide),
   c6_theorem.2 (fun _ => JSNum.nan) extraKeyReq okUpstream .ok⟩

/-- C7: a dimension whose numeric value exceeds 4000 is clamped to exactly
4000; a non-numeric (NaN), non-finite or `≤ 0` value yields an absent
dimension, not an error; an absent parameter stays absent. -/
theorem c7_theorem (num : String → JSNum) :
    (∀ v q, num v = .fin q → (4000 : ℚ) < q →
      parseDimension num (some v) = some 4000) ∧
    (∀ v, (num v = .nan ∨ num v = .posInf ∨ num v = .negInf ∨
        ∃ q, num v = .fin q ∧ q ≤ 0) →
      parseDimension num (some v) = none) ∧
    parseDimension num none = none := by
  refine ⟨?_, ?_, rfl⟩
  · intro v q hv hq
    have h0 : ¬ q ≤ 0 := by linarith
    have hfl : MAX_DIMENSION ≤ Int.floor q := by
      unfold MAX_DIMENSION
      exact Int.le_floor.mpr (by push_cast; linarith)
    simp only [parseDimension, hv, if_neg h0]
    rw [min_eq_right hfl]
    rfl
  · intro v h
    rcases h with h | h | h | ⟨q, hq, hle⟩ <;> simp [parseDimension, *]

/-- C7, witness: the clamp at a value of 5000 and the NaN fallback. -/
theorem c7_witness :
    parseDimension (fun _ => JSNum.fin 5000) (some "5000") = some 4000 ∧
    parseDimension (fun _ => JSNum.nan) (some "x") = none :=
  ⟨(c7_theorem (fun _ => JSNum.fin 5000)).1 "5000" 5000 rfl (by norm_num),
   (c7_theorem (fun _ => JSNum.nan)).2.1 "x" (Or.inl rfl)⟩

/-- C8: a non-finite quality input is absent; a finite input becomes the
integer `max 1 (min 100 (floor n))`, which lies in [1,100]; the quality is
put into the encoder options only when the output format is one of jpeg,
png, webp, avif, tiff — for gif the options never carry a quality. -/
theorem c8_theorem (num : String → JSNum) :
    (∀ v, (num v).isFinite = false → normalizeQuality num (some v) = none) ∧
    (∀ v q, num v = .fin q →
      normalizeQuality num (some v) = some (max 1 (min 100 (Int.floor q))) ∧
      1 ≤ max 1 (min 100 (Int.floor q)) ∧ max 1 (min 100 (Int.floor q)) ≤ 100) ∧
    (∀ w h fit q, (buildTransformer w h fit (some .gif) q).toFormat = some (.gif, none)) ∧
    (∀ w h fit fmt q f qq,
      (buildTransformer w h fit fmt q).toFormat = some (f, some qq) →
      f ∈ qualityFormats ∧ f ≠ .gif ∧ q = some qq) := by
  refine ⟨?_, ?_, ?_, ?_⟩
  · intro v h
    cases hn : num v <;> simp_all [normalizeQuality, JSNum.isFinite]
  · intro v q hv
    refine ⟨by simp [normalizeQuality, hv], le_max_left _ _,
      max_le (by norm_num) (min_le_left _ _)⟩
  · intro w h fit q
    have hg : OutFormat.gif ∉ qualityFormats := by decide
    simp [buildTransformer, hg]
  · intro w h fit fmt q f qq hyp
    rcases fmt with _ | g
    · simp [buildTransformer] at hyp
    · simp [buildTransformer] at hyp
      rcases hyp with ⟨hgf, ⟨hqs, hmem⟩, hq⟩
      subst hgf
      refine ⟨hmem, ?_, hq⟩
      intro hgif
      subst hgif
      simp [qualityFormats] at hmem

/-- C8, witness: quality 250 clamps to 100, NaN is absent, gif never
receives a quality option, and webp with quality 80 does. -/
theorem c8_witness :
    normalizeQuality (fun _ => JSNum.fin 250) (some "250") = some 100 ∧
    normalizeQuality (fun _ => JSNum.nan) (some "x") = none ∧
    (buildTransformer none none .cover (some .gif) (some 80)).toFormat =
      some (.gif, none) ∧
    (OutFormat.webp ∈ qualityFormats ∧ OutFormat.webp ≠ .gif ∧
      (some 80 : Option ℤ) = some 80) :=
  ⟨((c8_theorem (fun _ => JSNum.fin 250)).2.1 "250" 250 rfl).1,
   (c8_theorem (fun _ => JSNum.nan)).1 "x" rfl,
   (c8_theorem (fun _ => JSNum.nan)).2.2.1 none none .cover (some 80),
   (c8_theorem (fun _ => JSNum.nan)).2.2.2 none none .cover (some .webp)
     (some 80) .webp 80 (by decide)⟩

theorem startsWith_image_ne_empty {s : String} (h : strStartsWith s "image/" = true) :
    s ≠ "" := by
  intro hs
  subst hs
  revert h
  decide

/-- C9: on the transform branch, the response content-type is
`image/<format>` whenever a format was specified (with `jpg` normalized to
`jpeg`), else the upstream content-type when it starts with `image/`, else
`application/octet-stream`; an unrecognized format token normalizes to
absent, so the content-type falls back to the upstream's. -/
theorem c9_theorem :
    (∀ f orig, deriveTransformContentType (some f) orig = "image/" ++ f.name) ∧
    (∀ s, s ≠ "" → jsToLower s = "jpg" → normalizeFormat (some s) = some .jpeg) ∧
    (∀ s, strStartsWith s "image/" = true →
      deriveTransformContentType none (some s) = s) ∧
    (∀ s, strStartsWith s "image/" = false →
      deriveTransformContentType none (some s) = "application/octet-stream") ∧
    deriveTransformContentType none none = "application/octet-stream" ∧
    (∀ s, jsToLower s ∉ ["jpg", "jpeg", "png", "webp", "avif", "gif", "tiff"] →
      normalizeFormat (some s) = none) := by
  refine ⟨fun f orig => rfl, ?_, ?_, ?_, rfl, ?_⟩
  · intro s hne hjpg
    simp [normalizeFormat, hne, hjpg]
  · intro s h
    have hne := startsWith_image_ne_empty h
    simp [deriveTransformContentType, h, hne]
  · intro s h
    simp [deriveTransformContentType, h]
  · intro s h
    simp only [List.mem_cons, List.not_mem_nil, or_false, not_or] at h
    obtain ⟨h1, h2, h3, h4, h5, h6, h7⟩ := h
    by_cases hs : s = ""
    · simp [normalizeFormat, hs]
    · simp [normalizeFormat, hs, h1, h2, h3, h4, h5, h6, h7]

/-- C9, witness: a specified format, the `jPg` alias, an image/* upstream,
a non-image upstream, and an unrecognized token. -/
theorem c9_witness :
    deriveTransformContentType (some OutFormat.webp) (some "image/png") = "image/webp" ∧
    normalizeFormat (some "jPg") = some OutFormat.jpeg ∧
    deriveTransformContentType none (some "image/png") = "image/png" ∧
    deriveTransformContentType none (some "text/html") = "application/octet-stream" ∧
    normalizeFormat (some "bmp") = none :=
  ⟨c9_theorem.1 OutFormat.webp (some "image/png"),
   c9_theorem.2.1 "jPg" (by decide) (by decide),
   c9_theorem.2.2.1 "image/png" (by decide),
   c9_theorem.2.2.2.1 "text/html" (by decide),
   c9_theorem.2.2.2.2.2 "bmp" (by decide)⟩

/-- C10: `qp` uses the first element of an array value (string form of that
element), treats a non-null non-array object as absent, `null`/`undefined`
as absent, and returns any string unchanged (its JS string form). -/
theorem c10_theorem :
    qp QueryVal.vAbsent = none ∧
    (∀ s, qp (QueryVal.vStr s) = some s) ∧
    qp QueryVal.vObj = none ∧
    qp (QueryVal.vArr []) = none ∧
    (∀ e l, qp (QueryVal.vArr (e :: l)) = some (jsStringElem e)) :=
  ⟨rfl, fun _ => rfl, rfl, rfl, fun _ _ => rfl⟩

end ImageServer
